import Mathlib

/-!
# Verification of `financial_data_pipeline.py`

A shallow embedding of the `FinancialDataPipeline` class from
`src/financial_data_pipeline.py` (a fetch → validate → process → store ETL
pipeline over daily OHLCV stock rows), together with theorems settling the
specification's claims about it.

Modelling conventions:
* A pandas `DataFrame` is a `PyFrame`: a list of column names plus a list of
  rows.  The rows carry the columns the source manipulates (`Date`, `Ticker`,
  `Open`, `High`, `Low`, `Close`, `Volume`); the five price/volume cells are
  `Option ℚ` (`none` models a NaN/null cell), the date cell is a `DateCell`
  which is either a proper datetime value or a raw non-datetime value (a
  malformed date), and the ticker is a plain string (it is assigned by
  `fetch_stock_data` and is never null).
* Prices are idealized as exact rationals `ℚ`.
* A Python function that can raise is embedded with an `Except` body; a
  `try/except` wrapper that returns `None` becomes a `match` mapping
  `Except.error` to `none`.
* The Oracle table plus the connection's open transaction is a `Db`:
  `table` holds the committed rows (what any reader can see) and `pending`
  holds rows inserted in the current transaction but not yet committed.
  The `PRIMARY KEY (stock_date, ticker)` constraint of the `CREATE TABLE`
  statement makes an `INSERT` of a duplicate key fail immediately.
* The external yfinance collaborator is a parameter
  `fetch : String → Option PyFrame`: `fetch_stock_data` (lines 58-69)
  catches every exception and returns `None`, so its observable behaviour
  per ticker is exactly an optional frame.
-/

/- The Batteries rational arithmetic operations are `@[irreducible]`; re-mark
them semireducible in this file so that concrete evaluations go through
`decide`. -/
attribute [local semireducible] Rat.sub Rat.add Rat.mul Rat.inv

/-- A cell of the `Date` column: either a genuine datetime value (year, month,
day — after `stock.history(...).reset_index()` the column is `datetime64`) or
a raw non-datetime value, modelling a malformed date on which the `.dt`
accessor of `process_data` line 104 raises. -/
inductive DateCell where
  | date (y m d : ℕ)
  | raw (s : String)
deriving DecidableEq

/-- One row of a fetched frame, with the columns the source reads:
`Date`, `Ticker`, `Open`, `High`, `Low`, `Close`, `Volume`.  The five
price/volume cells are nullable (`none` = NaN); the date and ticker are not
(yfinance dates are a `DatetimeIndex` and the ticker is assigned on line 64). -/
structure Row where
  date : DateCell
  ticker : String
  «open» : Option ℚ
  high : Option ℚ
  low : Option ℚ
  close : Option ℚ
  volume : Option ℚ
deriving DecidableEq

/-- A pandas DataFrame: its column names plus its rows. -/
structure PyFrame where
  cols : List String
  rows : List Row
deriving DecidableEq

/-- Line 77's test for one row: `data[['Open','High','Low','Close','Volume']].isnull()`.
`dropna()` on line 79 drops rows that are null in *any* column, but in this
frame the `Date` and `Ticker` columns are never null, so a row is dropped by
`dropna()` exactly when one of the five price/volume cells is null. -/
def rowHasNull (r : Row) : Bool :=
  r.«open».isNone || r.high.isNone || r.low.isNone || r.close.isNone || r.volume.isNone

/-- Lines 77-79 of `validate_data`: if any of the five price/volume columns
contains a null, drop (`dropna()`) every row containing a null. -/
def completenessStage (rows : List Row) : List Row :=
  if rows.any rowHasNull then rows.filter (fun r => !(rowHasNull r)) else rows

/-- The value of one cell of the `PriceChange` column created on line 81:
either a well-defined rational change, or NaN (`undef`: the first row, a null
operand, or 0/0), or an infinity (`inf`: a nonzero close after a zero close).
Only its magnitude is ever compared, so the sign of an infinity is dropped. -/
inductive PChange where
  | undef
  | inf
  | val (q : ℚ)
deriving DecidableEq

/-- `pct_change` for one pair of consecutive `Close` cells:
`(cur - prev) / prev`, with the IEEE conventions of pandas mapped onto
`PChange`: a null operand gives NaN, `x/0` gives ±infinity for `x ≠ 0`
and NaN for `x = 0`. -/
def pctCell (prev cur : Option ℚ) : PChange :=
  match prev, cur with
  | some p, some c =>
      if p = 0 then (if c = 0 then PChange.undef else PChange.inf)
      else PChange.val ((c - p) / p)
  | _, _ => PChange.undef

/-- Line 81: `data['Close'].pct_change()` — the day-over-day change column.
The first row has no predecessor and gets NaN. -/
def pctChanges (rows : List Row) : List PChange :=
  match rows with
  | [] => []
  | r :: rest =>
      PChange.undef :: List.zipWith (fun a b => pctCell a.close b.close) (r :: rest) rest

/-- The comparison `abs(data['PriceChange']) > 0.5` of line 82 for one cell.
NaN compares false against everything; infinity exceeds 0.5. -/
def isExtremeChange : PChange → Bool
  | PChange.undef => false
  | PChange.inf => true
  | PChange.val q => decide (|q| > 1/2)

/-- The comparison `abs(data['PriceChange']) <= 0.5` of line 85 for one cell.
NaN compares false against everything, so a NaN row fails this keep-test. -/
def withinThreshold : PChange → Bool
  | PChange.undef => false
  | PChange.inf => false
  | PChange.val q => decide (|q| ≤ 1/2)

/-- Line 82: `extreme_changes = data[abs(data['PriceChange']) > 0.5]`,
each row paired with its `PriceChange` cell. -/
def extremeRows (rows : List Row) : List (Row × PChange) :=
  (rows.zip (pctChanges rows)).filter (fun p => isExtremeChange p.2)

/-- Lines 82-85: if any row's change is extreme, keep only the rows whose
change passes `abs(...) <= 0.5`; otherwise the frame is left as it is. -/
def outlierStage (rows : List Row) : List Row :=
  if (extremeRows rows).isEmpty then rows
  else ((rows.zip (pctChanges rows)).filter (fun p => withinThreshold p.2)).map Prod.fst

/-- The five columns selected on line 77. -/
def ohlcvCols : List String := ["Open", "High", "Low", "Close", "Volume"]

/-- Line 81's column assignment `data['PriceChange'] = ...` adds the column
name if it is not already present. -/
def addPriceChangeCol (cols : List String) : List String :=
  if cols.contains "PriceChange" then cols else cols ++ ["PriceChange"]

/-- The `try` body of `validate_data` (lines 77-85).  It raises (`Except.error`)
on a `KeyError`: line 77 selects the five price/volume columns, and line 84
additionally selects `Date` when logging the extreme rows — each selection
fails if the column is absent. -/
def validateBody (f : PyFrame) : Except String PyFrame :=
  if !(ohlcvCols.all (fun c => f.cols.contains c)) then Except.error "KeyError"
  else if !(extremeRows (completenessStage f.rows)).isEmpty && !(f.cols.contains "Date") then
    Except.error "KeyError"
  else Except.ok { cols := addPriceChangeCol f.cols,
                   rows := outlierStage (completenessStage f.rows) }

/-- `validate_data` (lines 71-91): `None` or empty input returns `None`
(lines 73-75); the body runs under `try`, and `except Exception` returns
`None` (lines 89-91), so no exception ever reaches the caller. -/
def validate_data (d : Option PyFrame) : Option PyFrame :=
  match d with
  | none => none
  | some f =>
      if f.rows.isEmpty then none
      else
        match validateBody f with
        | Except.ok g => some g
        | Except.error _ => none

/-- Whether a `Date` cell is a genuine datetime value (so that the `.dt`
accessor of line 104 works on the column). -/
def isDatetimeCell : DateCell → Bool
  | DateCell.date _ _ _ => true
  | DateCell.raw _ => false

/-- Zero-padded decimal rendering, as `strftime` pads `%Y`/`%m`/`%d`. -/
def padZeros (w : ℕ) (n : ℕ) : String :=
  let s := toString n
  String.mk (List.replicate (w - s.length) '0') ++ s

/-- Line 104's `strftime('%Y-%m-%d')` for one datetime cell. -/
def fmtDate : DateCell → String
  | DateCell.date y m d => padZeros 4 y ++ "-" ++ padZeros 2 m ++ "-" ++ padZeros 2 d
  | DateCell.raw s => s

/-- The canonical persisted shape produced by `process_data`'s projection and
rename (lines 99-104): `stock_date` is the formatted date string and the
numeric cells are carried over unchanged. -/
structure NRecord where
  stock_date : String
  ticker : String
  «open» : Option ℚ
  high : Option ℚ
  low : Option ℚ
  close : Option ℚ
  volume : Option ℚ
deriving DecidableEq

/-- The seven columns selected on line 99. -/
def procCols : List String := ["Date", "Ticker", "Open", "High", "Low", "Close", "Volume"]

/-- Projection and rename of one row (lines 99-104). -/
def toNRecord (r : Row) : NRecord :=
  { stock_date := fmtDate r.date, ticker := r.ticker, «open» := r.«open»,
    high := r.high, low := r.low, close := r.close, volume := r.volume }

/-- The `try` body of `process_data` (lines 99-106): the seven-column selection
of line 99 raises a `KeyError` when a column is absent, and the
`.dt.strftime` of line 104 raises when the `Date` column is not
datetime-valued (as it is when any cell holds a raw non-datetime value,
which makes the column dtype `object`).  It never drops a row. -/
def processBody (f : PyFrame) : Except String (List NRecord) :=
  if !(procCols.all (fun c => f.cols.contains c)) then Except.error "KeyError"
  else if !(f.rows.all (fun r => isDatetimeCell r.date)) then
    Except.error "AttributeError: .dt accessor"
  else Except.ok (f.rows.map toNRecord)

/-- `process_data` (lines 93-109): `None`/empty input returns `None`
(lines 95-97); the body runs under `try`, and `except Exception` returns
`None` (lines 107-109), so no exception — in particular no format error —
ever reaches the caller. -/
def process_data (d : Option PyFrame) : Option (List NRecord) :=
  match d with
  | none => none
  | some f =>
      if f.rows.isEmpty then none
      else
        match processBody f with
        | Except.ok out => some out
        | Except.error _ => none

/-- The Oracle `stock_data` table together with the connection's current
transaction: `table` is the committed content, visible to every reader;
`pending` is what the current uncommitted transaction has inserted. -/
structure Db where
  table : List NRecord
  pending : List NRecord
deriving DecidableEq

/-- The primary-key columns `(stock_date, ticker)` of a record
(line 49: `CONSTRAINT pk_stock_data PRIMARY KEY (stock_date, ticker)`). -/
def rkey (r : NRecord) : String × String := (r.stock_date, r.ticker)

/-- `create_table` (lines 26-56): it always executes
`DROP TABLE stock_data` (tolerating only "table does not exist") and then
`CREATE TABLE stock_data (...)`, so whatever the database held before, the
result is an empty table and an empty transaction (DDL commits implicitly). -/
def create_table (_db : Db) : Db := { table := [], pending := [] }

/-- Whether a key is already present, committed or pending, on this
connection: the `PRIMARY KEY` constraint checks an `INSERT` against both. -/
def keyTaken (db : Db) (k : String × String) : Bool :=
  (db.table ++ db.pending).any (fun r => decide (rkey r = k))

/-- One `INSERT INTO stock_data VALUES (...)` (lines 118-121): a duplicate
`(stock_date, ticker)` violates `pk_stock_data` and the statement fails
(`none`); otherwise the row joins the transaction's pending inserts. -/
def insertRow (db : Db) (r : NRecord) : Option Db :=
  if keyTaken db (rkey r) then none
  else some { db with pending := db.pending ++ [r] }

/-- Line 123's `cursor.executemany(insert_sql, data_tuples)`: rows are
inserted in order; the first failing insert raises, leaving the earlier rows
of the batch pending (uncommitted) and the rest unattempted. -/
def executemany (db : Db) (rs : List NRecord) : Db × Bool :=
  match rs with
  | [] => (db, false)
  | r :: rest =>
      match insertRow db r with
      | none => (db, true)
      | some db1 => executemany db1 rest

/-- `self.conn.commit()` (line 124): the pending inserts become committed. -/
def commitDb (db : Db) : Db := { table := db.table ++ db.pending, pending := [] }

/-- `store_data` (lines 111-128): `None`/empty input is a no-op (lines
113-115); otherwise the batch is inserted with `executemany` and committed,
and an `oracledb.Error` is logged and re-raised (line 128) — modelled by a
`some errorMessage` second component — without reaching the commit. -/
def store_data (db : Db) (d : Option (List NRecord)) : Db × Option String :=
  match d with
  | none => (db, none)
  | some rs =>
      if rs.isEmpty then (db, none)
      else
        match executemany db rs with
        | (db1, false) => (commitDb db1, none)
        | (db1, true) => (db1, some "ORA-00001: unique constraint violated")

/-- `run_pipeline` (lines 130-137): for each ticker in order, fetch, validate,
process, store.  The three processing stages return `None` on failure and
pass `None` through, but `store_data` re-raises storage errors and the loop
has no handler, so a storage error (the `some e` second component) aborts the
remaining tickers and propagates to `run_pipeline`'s caller.  The Python
function itself returns `None`: the only caller-visible outcomes are the
mutated database connection and a possibly escaping exception, which is
exactly the `Db × Option String` result of this embedding. -/
def run_pipeline (fetch : String → Option PyFrame) (db : Db) (tickers : List String) :
    Db × Option String :=
  match tickers with
  | [] => (db, none)
  | t :: ts =>
      match store_data db (process_data (validate_data (fetch t))) with
      | (db1, none) => run_pipeline fetch db1 ts
      | (db1, some e) => (db1, some e)

/-- The keys of the committed-plus-pending rows are pairwise distinct —
the uniqueness invariant claimed for the `stock_data` table. -/
def uniqueKeys (l : List NRecord) : Prop := (l.map rkey).Nodup

/-- A sequence of `store_data` calls threading the database state. -/
def foldStores (db : Db) (ds : List (Option (List NRecord))) : Db :=
  ds.foldl (fun s d => (store_data s d).1) db

/-- How many committed rows carry a given key. -/
def countKey (k : String × String) (l : List NRecord) : ℕ :=
  (l.filter (fun x => decide (rkey x = k))).length

/-- Spec-side predicate (from the words of claim C3 and spec §8): no two rows
that are *adjacent in this list* have an absolute close-to-close percentage
change exceeding the 0.5 threshold. -/
def specNoExtremeAdjacent (rows : List Row) : Bool :=
  (rows.zip rows.tail).all (fun p => !(isExtremeChange (pctCell p.1.close p.2.close)))

/-- A run summary as the specification describes it: counts of tickers that
ended `Done` and `Failed`, and the total number of records stored. -/
structure RunSummary where
  done : ℕ
  failed : ℕ
  stored : ℕ
deriving DecidableEq

/-- Spec-side definition (from the words of spec §4.4, the comparison
definition for claim C9): one ticker's contribution to the run summary.
A fetch failure is `Failed`; an empty result after validation is `Done` with
zero records; a normalization failure is `Failed`; a storage failure is
`Failed`; otherwise `Done` with the batch's records counted as stored. -/
def specTickerStep (fetch : String → Option PyFrame) (acc : RunSummary × Db) (t : String) :
    RunSummary × Db :=
  let s := acc.1
  let db := acc.2
  match fetch t with
  | none => ({ s with failed := s.failed + 1 }, db)
  | some raw =>
      match validate_data (some raw) with
      | none => ({ s with done := s.done + 1 }, db)
      | some v =>
          if v.rows.isEmpty then ({ s with done := s.done + 1 }, db)
          else
            match process_data (some v) with
            | none => ({ s with failed := s.failed + 1 }, db)
            | some p =>
                match store_data db (some p) with
                | (db1, none) =>
                    ({ s with done := s.done + 1, stored := s.stored + p.length }, db1)
                | (db1, some _) => ({ s with failed := s.failed + 1 }, db1)

/-- Spec-side definition (from the words of spec §4.4 and §6): the summary the
specification says a run over these tickers reports. -/
def specRunSummary (fetch : String → Option PyFrame) (db : Db) (tickers : List String) :
    RunSummary :=
  (tickers.foldl (specTickerStep fetch) ({ done := 0, failed := 0, stored := 0 }, db)).1

/- Concrete data used by counterexamples and witnesses. -/

/-- The columns of a frame as `fetch_stock_data` returns it. -/
def stdCols : List String := ["Date", "Open", "High", "Low", "Close", "Volume", "Ticker"]

/-- A complete row with all four prices equal to `q`. -/
def mkRow (y m d : ℕ) (t : String) (q : ℚ) : Row :=
  { date := DateCell.date y m d, ticker := t, «open» := some q,
    high := some q, low := some q, close := some q, volume := some 1000 }

/-- Day 1, close 100. -/
def rowD1 : Row := mkRow 2024 1 2 "AAPL" 100

/-- Day 2, close 90 (−10% from day 1). -/
def rowD2 : Row := mkRow 2024 1 3 "AAPL" 90

/-- Day 3, close 30 (−66.7% from day 2: extreme). -/
def rowD3 : Row := mkRow 2024 1 4 "AAPL" 30

/-- Day 4, close 40 (+33.3% from day 3). -/
def rowD4 : Row := mkRow 2024 1 5 "AAPL" 40

/-- Day 2 with close 200 (+100% from day 1: extreme). -/
def rowJump : Row := mkRow 2024 1 3 "AAPL" 200

/-- Two-day frame whose second day doubles: only day 2's change is extreme. -/
def frameJump : PyFrame := { cols := stdCols, rows := [rowD1, rowJump] }

/-- Four-day frame 100, 90, 30, 40: only rows 2 and 4 pass the keep-test. -/
def frameFour : PyFrame := { cols := stdCols, rows := [rowD1, rowD2, rowD3, rowD4] }

/-- A row with a null `Close` (and null `Open`). -/
def rowNull : Row :=
  { date := DateCell.date 2024 1 3, ticker := "AAPL", «open» := none,
    high := some 100, low := some 100, close := none, volume := some 1000 }

/-- A row whose `Date` cell is not a datetime value. -/
def rowBadDate : Row :=
  { date := DateCell.raw "not-a-date", ticker := "AAPL", «open» := some 100,
    high := some 100, low := some 100, close := some 100, volume := some 1000 }

/-- A frame containing a malformed-date row. -/
def frameBadDate : PyFrame := { cols := stdCols, rows := [rowD1, rowBadDate] }

/-- A nonempty frame missing every price column (column selection on it
raises a `KeyError` inside `validate_data`). -/
def frameNoCols : PyFrame := { cols := ["Date", "Ticker"], rows := [rowD1] }

/-- A frame with two rows on the same date for the same ticker: its batch
violates the primary key within itself. -/
def frameDup : PyFrame := { cols := stdCols, rows := [rowD1, mkRow 2024 1 2 "AAPL" 100] }

/-- A benign one-row frame for a second ticker. -/
def frameMsft : PyFrame := { cols := stdCols, rows := [mkRow 2024 1 3 "MSFT" 50] }

/-- A fetch collaborator: "AAPL" yields the key-colliding frame, "MSFT" a good
frame, anything else a fetch failure. -/
def fetchDup : String → Option PyFrame :=
  fun t => if t = "AAPL" then some frameDup else if t = "MSFT" then some frameMsft else none

/-- A fetch collaborator that always fails (per the spec, every ticker ends
`Failed`). -/
def fetchFail : String → Option PyFrame := fun _ => none

/-- A fetch collaborator that always returns an empty frame (per the spec,
every ticker ends `Done` with zero records). -/
def fetchEmptyData : String → Option PyFrame :=
  fun _ => some { cols := stdCols, rows := [] }

/-- A fresh database: empty committed table, no pending transaction. -/
def db0 : Db := { table := [], pending := [] }

/-- The record stored for `rowD1`. -/
def recD1 : NRecord := toNRecord rowD1

/-! ## Helper lemmas -/

theorem keyTaken_iff (db : Db) (k : String × String) :
    keyTaken db k = true ↔ k ∈ (db.table ++ db.pending).map rkey := by
  unfold keyTaken
  rw [List.any_eq_true, List.mem_map]
  constructor
  · rintro ⟨r, hr, hk⟩
    exact ⟨r, hr, of_decide_eq_true hk⟩
  · rintro ⟨r, hr, hk⟩
    exact ⟨r, hr, decide_eq_true hk⟩

theorem executemany_table (db : Db) (rs : List NRecord) :
    (executemany db rs).1.table = db.table := by
  induction rs generalizing db with
  | nil => rfl
  | cons r rest ih =>
    unfold executemany
    cases hir : insertRow db r with
    | none => rfl
    | some db1 =>
      have ht : db1.table = db.table := by
        unfold insertRow at hir
        split at hir
        · exact Option.noConfusion hir
        · cases hir
          rfl
      exact (ih db1).trans ht

theorem executemany_ok_pending (db : Db) (rs : List NRecord)
    (h : (executemany db rs).2 = false) :
    (executemany db rs).1.pending = db.pending ++ rs := by
  induction rs generalizing db with
  | nil => simp [executemany]
  | cons r rest ih =>
    unfold executemany at h ⊢
    cases hir : insertRow db r with
    | none =>
      rw [hir] at h
      have h2 : true = false := h
      exact Bool.noConfusion h2
    | some db1 =>
      rw [hir] at h
      have h2 : (executemany db1 rest).2 = false := h
      have hp : db1.pending = db.pending ++ [r] := by
        unfold insertRow at hir
        split at hir
        · exact Option.noConfusion hir
        · cases hir
          rfl
      show (executemany db1 rest).1.pending = db.pending ++ r :: rest
      rw [ih db1 h2, hp]
      simp

theorem insertRow_unique (db : Db) (r : NRecord) (db1 : Db)
    (h : insertRow db r = some db1) (hu : uniqueKeys (db.table ++ db.pending)) :
    uniqueKeys (db1.table ++ db1.pending) := by
  unfold insertRow at h
  split at h
  · exact Option.noConfusion h
  · rename_i hk
    cases h
    unfold uniqueKeys at hu ⊢
    have hnm : rkey r ∉ (db.table ++ db.pending).map rkey := fun hmem =>
      hk ((keyTaken_iff db (rkey r)).mpr hmem)
    simp only [← List.append_assoc, List.map_append, List.map_cons, List.map_nil]
    rw [List.nodup_append]
    refine ⟨by simpa using hu, List.nodup_singleton _, ?_⟩
    intro a ha hb
    rw [List.mem_singleton] at hb
    subst hb
    exact hnm (by simpa using ha)

theorem executemany_unique (db : Db) (rs : List NRecord)
    (hu : uniqueKeys (db.table ++ db.pending)) :
    uniqueKeys ((executemany db rs).1.table ++ (executemany db rs).1.pending) := by
  induction rs generalizing db with
  | nil => exact hu
  | cons r rest ih =>
    unfold executemany
    cases hir : insertRow db r with
    | none => exact hu
    | some db1 => exact ih db1 (insertRow_unique db r db1 hir hu)

theorem store_data_unique (db : Db) (d : Option (List NRecord))
    (hu : uniqueKeys (db.table ++ db.pending)) :
    uniqueKeys ((store_data db d).1.table ++ (store_data db d).1.pending) := by
  cases d with
  | none => exact hu
  | some rs =>
    unfold store_data
    by_cases he : rs.isEmpty = true
    · simpa [he] using hu
    · simp only [he, Bool.false_eq_true, if_false]
      have hx := executemany_unique db rs hu
      cases hex : executemany db rs with
      | mk db1 flag =>
        have hx2 : uniqueKeys (db1.table ++ db1.pending) := by
          first
          | exact hx
          | (rw [hex] at hx; exact hx)
        cases flag with
        | false =>
          show uniqueKeys ((db1.table ++ db1.pending) ++ [])
          rw [List.append_nil]
          exact hx2
        | true => exact hx2

theorem countKey_not_mem (k : String × String) (l : List NRecord)
    (h : k ∉ l.map rkey) : countKey k l = 0 := by
  unfold countKey
  rw [List.length_eq_zero]
  rw [List.filter_eq_nil_iff]
  intro a ha
  simp only [decide_eq_true_eq]
  intro hk
  exact h (List.mem_map.mpr ⟨a, ha, hk⟩)

theorem countKey_of_nodup (k : String × String) (l : List NRecord)
    (hu : (l.map rkey).Nodup) (hm : k ∈ l.map rkey) : countKey k l = 1 := by
  induction l with
  | nil => cases hm
  | cons r rest ih =>
    rw [List.map_cons, List.nodup_cons] at hu
    rw [List.map_cons, List.mem_cons] at hm
    by_cases hk : rkey r = k
    · have hnot : k ∉ rest.map rkey := fun hc => hu.1 (hk ▸ hc)
      have h0 := countKey_not_mem k rest hnot
      unfold countKey at h0 ⊢
      rw [List.filter_cons_of_pos (by simpa using hk)]
      simp [h0]
    · have hm2 : k ∈ rest.map rkey := by
        cases hm with
        | inl h => exact absurd h.symm hk
        | inr h => exact h
      have h1 := ih hu.2 hm2
      unfold countKey at h1 ⊢
      rw [List.filter_cons_of_neg (by simpa using hk)]
      exact h1

/-! ## Claim theorems -/

/-- C1 (counterexample): a storage failure is *not* isolated inside
`run_pipeline`'s per-ticker loop.  With the fetch collaborator `fetchDup`,
ticker "AAPL" yields a batch violating the primary key, `store_data`
re-raises, and the error escapes `run_pipeline` (the second component is
`some _`); ticker "MSFT", later in the sequence, is never processed — its
record is missing from the table even though running "MSFT" alone stores it.
This refutes "never propagates out of run_pipeline; processing always
proceeds to the next ticker". -/
theorem storage_error_escapes_run_pipeline :
    ((run_pipeline fetchDup db0 ["AAPL", "MSFT"]).2).isSome = true ∧
    (run_pipeline fetchDup db0 ["AAPL", "MSFT"]).1.table = [] ∧
    (run_pipeline fetchDup db0 ["MSFT"]).1.table = [toNRecord (mkRow 2024 1 3 "MSFT" 50)] := by
  decide

/-- C1 (amended): a failure in fetch, validation or normalization is absorbed
(the stage chain passes `none` through, storing nothing) and processing
proceeds to the next ticker; but a storage error is re-raised by `store_data`
and `run_pipeline` does not catch it, so it propagates to `run_pipeline`'s
caller and aborts the remaining tickers. -/
theorem run_pipeline_isolation_and_storage_abort :
    (∀ (fetch : String → Option PyFrame) (db : Db) (t : String) (ts : List String),
        process_data (validate_data (fetch t)) = none →
        run_pipeline fetch db (t :: ts) = run_pipeline fetch db ts) ∧
    (∀ (fetch : String → Option PyFrame) (db : Db) (t : String) (ts : List String)
        (db1 : Db) (e : String),
        store_data db (process_data (validate_data (fetch t))) = (db1, some e) →
        run_pipeline fetch db (t :: ts) = (db1, some e)) := by
  constructor
  · intro fetch db t ts h
    show (match store_data db (process_data (validate_data (fetch t))) with
          | (db1, none) => run_pipeline fetch db1 ts
          | (db1, some e) => (db1, some e)) = run_pipeline fetch db ts
    rw [h]
    rfl
  · intro fetch db t ts db1 e h
    show (match store_data db (process_data (validate_data (fetch t))) with
          | (db1, none) => run_pipeline fetch db1 ts
          | (db1, some e) => (db1, some e)) = (db1, some e)
    rw [h]

/-- C1 (witness): the isolation conjunct applied to a failing fetch, and the
abort conjunct applied to the duplicate-key run. -/
theorem run_pipeline_isolation_and_storage_abort_witness :
    run_pipeline fetchFail db0 ["AAPL", "MSFT"] = run_pipeline fetchFail db0 ["MSFT"] ∧
    run_pipeline fetchDup db0 ["AAPL", "MSFT"] =
      ({ table := [], pending := [recD1] }, some "ORA-00001: unique constraint violated") :=
  ⟨run_pipeline_isolation_and_storage_abort.1 fetchFail db0 "AAPL" ["MSFT"] rfl,
   run_pipeline_isolation_and_storage_abort.2 fetchDup db0 "AAPL" ["MSFT"]
     { table := [], pending := [recD1] } "ORA-00001: unique constraint violated" (by decide)⟩

/-- C2 (counterexample): in the two-day frame `frameJump` only the *second*
row's change (+100%) exceeds the threshold, yet the validated output is empty:
the first row was dropped by the outlier filter (its NaN change fails the
`abs(...) <= 0.5` keep-test of line 85 once the filter fires).  This refutes
"the first row ... is therefore never dropped by it". -/
theorem outlier_filter_drops_first_row :
    (validate_data (some frameJump)).map PyFrame.rows = some [] ∧
    isExtremeChange (pctCell rowD1.close rowJump.close) = true := by
  decide

/-- C2 (amended): the first row is never *classified* as extreme (it never
appears in line 82's `extreme_changes`, because its NaN change fails
`abs(...) > 0.5`), and when no change is extreme the frame — first row
included — is returned unchanged; but whenever the filter fires, the kept
rows are drawn only from the tail, i.e. the first row is dropped as well,
because its NaN change also fails the `abs(...) <= 0.5` keep-test. -/
theorem first_row_never_extreme_but_dropped (r : Row) (rest : List Row) :
    extremeRows (r :: rest) =
      (rest.zip (List.zipWith (fun a b => pctCell a.close b.close) (r :: rest) rest)).filter
        (fun p => isExtremeChange p.2) ∧
    ((extremeRows (r :: rest)).isEmpty = true → outlierStage (r :: rest) = r :: rest) ∧
    ((extremeRows (r :: rest)).isEmpty = false →
      outlierStage (r :: rest) =
        ((rest.zip (List.zipWith (fun a b => pctCell a.close b.close) (r :: rest) rest)).filter
          (fun p => withinThreshold p.2)).map Prod.fst) := by
  refine ⟨rfl, ?_, ?_⟩
  · intro h
    unfold outlierStage
    rw [if_pos h]
  · intro h
    unfold outlierStage
    rw [if_neg (by rw [h]; exact Bool.false_ne_true)]
    rfl

/-- C2 (witness): the amended theorem at the concrete frame `frameJump`,
whose extreme-row set is nonempty. -/
theorem first_row_never_extreme_but_dropped_witness :
    outlierStage [rowD1, rowJump] =
      (([rowJump].zip (List.zipWith (fun a b => pctCell a.close b.close)
          [rowD1, rowJump] [rowJump])).filter
        (fun p => withinThreshold p.2)).map Prod.fst :=
  (first_row_never_extreme_but_dropped rowD1 [rowJump]).2.2 (by decide)

/-- C3 (counterexample): for the four-day frame with closes 100, 90, 30, 40,
`validate_data` keeps the rows with closes 90 and 40 (their changes relative
to their *input* predecessors are −10% and +33%), but those two rows are
adjacent in the output with a −55.6% change between them — the output does
contain two adjacent rows whose change exceeds the 0.5 threshold. -/
theorem validated_series_adjacent_extreme_change :
    (validate_data (some frameFour)).map PyFrame.rows = some [rowD2, rowD4] ∧
    specNoExtremeAdjacent [rowD2, rowD4] = false := by
  decide

/-- C3 (amended): when the outlier filter fires, every row of the validated
output passed the `abs(PriceChange) <= 0.5` keep-test, where `PriceChange` is
computed against the row's predecessor in the *pre-filter* (completeness-stage)
series; changes between rows that become adjacent only in the output are never
re-checked, so adjacent output rows may exceed the threshold. -/
theorem validated_rows_pass_keep_test (f g : PyFrame)
    (hv : validate_data (some f) = some g)
    (hfire : (extremeRows (completenessStage f.rows)).isEmpty = false) :
    ∀ r ∈ g.rows, ∃ c,
      (r, c) ∈ (completenessStage f.rows).zip (pctChanges (completenessStage f.rows)) ∧
      withinThreshold c = true := by
  have hrows : g.rows = outlierStage (completenessStage f.rows) := by
    have hv2 : (if f.rows.isEmpty = true then (none : Option PyFrame)
        else match validateBody f with
          | Except.ok g1 => some g1
          | Except.error _ => none) = some g := hv
    split at hv2
    · exact Option.noConfusion hv2
    · cases hvb : validateBody f with
      | error e =>
        rw [hvb] at hv2
        exact Option.noConfusion (show (none : Option PyFrame) = some g from hv2)
      | ok g0 =>
        rw [hvb] at hv2
        have hv3 : some g0 = some g := hv2
        cases hv3
        unfold validateBody at hvb
        split at hvb
        · exact Except.noConfusion hvb
        · split at hvb
          · exact Except.noConfusion hvb
          · cases hvb
            rfl
  intro r hr
  rw [hrows] at hr
  unfold outlierStage at hr
  rw [if_neg (by rw [hfire]; exact Bool.false_ne_true)] at hr
  obtain ⟨p, hp, hpr⟩ := List.mem_map.mp hr
  rw [List.mem_filter] at hp
  refine ⟨p.2, ?_, hp.2⟩
  rw [← hpr]
  exact hp.1

/-- C3 (witness): the amended theorem at the concrete frame `frameFour` and
its kept row `rowD2`. -/
theorem validated_rows_pass_keep_test_witness :
    ∃ c, (rowD2, c) ∈
        (completenessStage frameFour.rows).zip (pctChanges (completenessStage frameFour.rows)) ∧
      withinThreshold c = true :=
  validated_rows_pass_keep_test frameFour
    { cols := addPriceChangeCol stdCols, rows := [rowD2, rowD4] }
    (by decide) (by decide) rowD2 (by decide)

/-- C4 (confirmed): when at least one row has a null price/volume cell, the
completeness rule (lines 77-79) keeps exactly the rows with no null
price/volume cell — it removes exactly the null-containing rows and no
others.  (In these frames the `Date` and `Ticker` columns are never null, so
`dropna()` tests exactly the five price/volume cells.) -/
theorem completeness_drops_exactly_null_rows (rows : List Row)
    (h : ∃ r ∈ rows, rowHasNull r = true) :
    completenessStage rows = rows.filter (fun r => !(rowHasNull r)) := by
  unfold completenessStage
  rw [if_pos (List.any_eq_true.mpr h)]

/-- C4 (witness): the theorem at a concrete frame with one null row. -/
theorem completeness_drops_exactly_null_rows_witness :
    completenessStage [rowNull, rowD1] = [rowD1] := by
  rw [completeness_drops_exactly_null_rows [rowNull, rowD1] ⟨rowNull, by decide, by decide⟩]
  decide

/-- C5 (counterexample): on a series containing a row whose date is not a
valid calendar date, `process_data` raises nothing to its caller — its
`except Exception` handler turns the internal error into the `None`/Empty
result.  No `FormatError` reaches the caller, and the returned result omits
the malformed row (indeed every row). -/
theorem process_data_no_format_error_raised :
    process_data (some { cols := stdCols, rows := [rowBadDate] }) = none ∧
    ({ cols := stdCols, rows := [rowBadDate] } : PyFrame).rows ≠ [] := by
  decide

/-- C5 (amended): for every frame containing a row whose date cell is not a
datetime value, `process_data` returns `None`: the `.dt.strftime` of line 104
(or the column selection of line 99) raises inside the `try`, the handler of
lines 107-109 catches it, and the whole series is silently discarded instead
of a `FormatError` being raised to the caller. -/
theorem process_data_swallows_bad_date (f : PyFrame)
    (h : ∃ r ∈ f.rows, isDatetimeCell r.date = false) :
    process_data (some f) = none := by
  obtain ⟨r, hr, hbad⟩ := h
  have hne : f.rows.isEmpty = false := by
    cases hm : f.rows with
    | nil => rw [hm] at hr; cases hr
    | cons a l => rfl
  have hpb : ∀ out, processBody f ≠ Except.ok out := by
    intro out hok
    unfold processBody at hok
    split at hok
    · exact Except.noConfusion hok
    · split at hok
      · exact Except.noConfusion hok
      · rename_i hall
        rw [Bool.not_eq_true', Bool.not_eq_false] at hall
        have := List.all_eq_true.mp hall r hr
        rw [hbad] at this
        exact Bool.noConfusion this
  show (if f.rows.isEmpty = true then (none : Option (List NRecord))
      else match processBody f with
        | Except.ok out => some out
        | Except.error _ => none) = none
  rw [if_neg (by rw [hne]; exact Bool.false_ne_true)]
  cases hb : processBody f with
  | ok out => exact absurd hb (hpb out)
  | error e => rfl

/-- C5 (witness): the amended theorem at `frameBadDate` (a two-row frame whose
second row has a malformed date). -/
theorem process_data_swallows_bad_date_witness :
    process_data (some frameBadDate) = none :=
  process_data_swallows_bad_date frameBadDate ⟨rowBadDate, by decide, by decide⟩

/-- C6 (confirmed): first conjunct — across any sequence of `store_data`
calls, the primary key `pk_stock_data` keeps the keys of the rows on the
connection (committed and pending) pairwise distinct, so at no point do two
rows with the same `(stock_date, ticker)` coexist.  Second conjunct — writing
the same record twice from a clean transaction raises a storage error on the
repeated write and leaves exactly one committed row for that key. -/
theorem stock_data_key_uniqueness :
    (∀ (db : Db) (ds : List (Option (List NRecord))),
        uniqueKeys (db.table ++ db.pending) →
        uniqueKeys ((foldStores db ds).table ++ (foldStores db ds).pending)) ∧
    (∀ (db : Db) (r : NRecord), db.pending = [] → uniqueKeys db.table →
        ((store_data (store_data db (some [r])).1 (some [r])).2).isSome = true ∧
        countKey (rkey r) (store_data (store_data db (some [r])).1 (some [r])).1.table = 1) := by
  constructor
  · intro db ds hu
    induction ds generalizing db with
    | nil => exact hu
    | cons d rest ih => exact ih (store_data db d).1 (store_data_unique db d hu)
  · intro db r hp hu
    by_cases hkt : keyTaken db (rkey r) = true
    · have hs1 : store_data db (some [r]) = (db, some "ORA-00001: unique constraint violated") := by
        show (if ([r] : List NRecord).isEmpty = true then (db, none)
            else match executemany db [r] with
              | (db1, false) => (commitDb db1, none)
              | (db1, true) => (db1, some "ORA-00001: unique constraint violated")) =
          (db, some "ORA-00001: unique constraint violated")
        rw [if_neg (by exact Bool.false_ne_true)]
        show (match executemany db [r] with
              | (db1, false) => (commitDb db1, none)
              | (db1, true) => (db1, some "ORA-00001: unique constraint violated")) =
          (db, some "ORA-00001: unique constraint violated")
        have hex : executemany db [r] = (db, true) := by
          show (match insertRow db r with
                | none => (db, true)
                | some db1 => executemany db1 []) = (db, true)
          unfold insertRow
          rw [if_pos hkt]
        rw [hex]
      rw [hs1, hs1]
      refine ⟨rfl, ?_⟩
      have hmem : rkey r ∈ db.table.map rkey := by
        have := (keyTaken_iff db (rkey r)).mp hkt
        rw [hp, List.append_nil] at this
        exact this
      exact countKey_of_nodup (rkey r) db.table hu hmem
    · have hnm : rkey r ∉ db.table.map rkey := by
        intro hc
        exact hkt ((keyTaken_iff db (rkey r)).mpr (by rw [hp, List.append_nil]; exact hc))
      have hins : insertRow db r = some { db with pending := db.pending ++ [r] } := by
        unfold insertRow
        rw [if_neg hkt]
      have hs1 : store_data db (some [r]) =
          ({ table := db.table ++ (db.pending ++ [r]), pending := [] }, none) := by
        show (if ([r] : List NRecord).isEmpty = true then (db, none)
            else match executemany db [r] with
              | (db1, false) => (commitDb db1, none)
              | (db1, true) => (db1, some "ORA-00001: unique constraint violated")) = _
        rw [if_neg (by exact Bool.false_ne_true)]
        have hex : executemany db [r] = ({ db with pending := db.pending ++ [r] }, false) := by
          show (match insertRow db r with
                | none => (db, true)
                | some db1 => executemany db1 []) = _
          rw [hins]
          rfl
        show (match executemany db [r] with
              | (db1, false) => (commitDb db1, none)
              | (db1, true) => (db1, some "ORA-00001: unique constraint violated")) = _
        rw [hex]
        rfl
      rw [hs1]
      have hkt2 : keyTaken { table := db.table ++ (db.pending ++ [r]), pending := [] } (rkey r)
          = true := by
        rw [keyTaken_iff]
        rw [hp]
        simp
      have hex2 : executemany { table := db.table ++ (db.pending ++ [r]), pending := [] } [r] =
          ({ table := db.table ++ (db.pending ++ [r]), pending := [] }, true) := by
        show (match insertRow { table := db.table ++ (db.pending ++ [r]), pending := [] } r with
              | none => (({ table := db.table ++ (db.pending ++ [r]), pending := [] } : Db), true)
              | some db1 => executemany db1 []) =
          (({ table := db.table ++ (db.pending ++ [r]), pending := [] } : Db), true)
        unfold insertRow
        rw [if_pos hkt2]
      have hs2 : store_data ({ table := db.table ++ (db.pending ++ [r]), pending := [] } : Db)
          (some [r]) =
          ({ table := db.table ++ (db.pending ++ [r]), pending := [] },
            some "ORA-00001: unique constraint violated") := by
        show (match executemany { table := db.table ++ (db.pending ++ [r]), pending := [] } [r] with
              | (db1, false) => (commitDb db1, none)
              | (db1, true) => (db1, some "ORA-00001: unique constraint violated")) =
          ({ table := db.table ++ (db.pending ++ [r]), pending := [] },
            some "ORA-00001: unique constraint violated")
        rw [hex2]
      rw [hs2]
      refine ⟨rfl, ?_⟩
      show countKey (rkey r) (db.table ++ (db.pending ++ [r])) = 1
      rw [hp]
      unfold countKey
      rw [List.filter_append]
      have h0 : db.table.filter (fun x => decide (rkey x = rkey r)) = [] := by
        rw [List.filter_eq_nil_iff]
        intro a ha
        simp only [decide_eq_true_eq]
        intro hk
        exact hnm (List.mem_map.mpr ⟨a, ha, hk⟩)
      rw [h0]
      simp

/-- C6 (witness): the double-write conjunct at a fresh database and the
concrete record `recD1`. -/
theorem stock_data_key_uniqueness_witness :
    ((store_data (store_data db0 (some [recD1])).1 (some [recD1])).2).isSome = true ∧
    countKey (rkey recD1) (store_data (store_data db0 (some [recD1])).1 (some [recD1])).1.table
      = 1 :=
  stock_data_key_uniqueness.2 db0 recD1 rfl List.nodup_nil

/-- C7 (confirmed): starting from a clean transaction, `store_data` on a batch
is atomic for readers: either it succeeds, committing exactly the whole batch
(the committed table becomes the old table followed by the batch, and the
transaction is clean again), or it reports a storage error and the committed
table — all a reader can see — is unchanged.  (On error the partial inserts
stay uncommitted; the re-raised exception aborts the run before anything else
could commit them, and an uncommitted transaction is rolled back when the
connection terminates.) -/
theorem store_data_atomic (db : Db) (rs : List NRecord) (hp : db.pending = []) :
    ((store_data db (some rs)).2 = none ∧
      (store_data db (some rs)).1.table = db.table ++ rs ∧
      (store_data db (some rs)).1.pending = []) ∨
    (((store_data db (some rs)).2).isSome = true ∧
      (store_data db (some rs)).1.table = db.table) := by
  by_cases he : rs.isEmpty = true
  · left
    have hrs : rs = [] := by
      cases rs with
      | nil => rfl
      | cons a l => exact Bool.noConfusion he
    subst hrs
    refine ⟨rfl, ?_, hp⟩
    show db.table = db.table ++ []
    rw [List.append_nil]
  · have hsd : store_data db (some rs) =
        (match executemany db rs with
          | (db1, false) => (commitDb db1, none)
          | (db1, true) => (db1, some "ORA-00001: unique constraint violated")) := by
      show (if rs.isEmpty = true then (db, none)
          else match executemany db rs with
            | (db1, false) => (commitDb db1, none)
            | (db1, true) => (db1, some "ORA-00001: unique constraint violated")) = _
      rw [if_neg he]
    cases hex : executemany db rs with
    | mk db1 flag =>
      have ht : db1.table = db.table := by
        have := executemany_table db rs
        rw [hex] at this
        exact this
      cases flag with
      | false =>
        left
        have hpend : db1.pending = rs := by
          have := executemany_ok_pending db rs (by rw [hex])
          rw [hex, hp] at this
          simpa using this
        rw [hsd, hex]
        exact ⟨rfl, by show db1.table ++ db1.pending = db.table ++ rs; rw [ht, hpend], rfl⟩
      | true =>
        right
        rw [hsd, hex]
        exact ⟨rfl, ht⟩

/-- C7 (witness): the theorem at a fresh database and a one-record batch. -/
theorem store_data_atomic_witness :
    ((store_data db0 (some [recD1])).2 = none ∧
      (store_data db0 (some [recD1])).1.table = db0.table ++ [recD1] ∧
      (store_data db0 (some [recD1])).1.pending = []) ∨
    (((store_data db0 (some [recD1])).2).isSome = true ∧
      (store_data db0 (some [recD1])).1.table = db0.table) :=
  store_data_atomic db0 [recD1] rfl

/-- C8 (code bug): `create_table` does *not* preserve previously stored rows.
Its docstring ("Create a table to store stock data if it doesn't exist") and
its log message promise create-if-absent, but lines 30-39 unconditionally
execute `DROP TABLE stock_data` before the `CREATE`, so a table holding a
committed row from an earlier run comes out empty: the row `recD1` present
before is gone afterwards. -/
theorem create_table_destroys_prior_rows :
    create_table { table := [recD1], pending := [] } = { table := [], pending := [] } ∧
    recD1 ∈ ({ table := [recD1], pending := [] } : Db).table ∧
    recD1 ∉ (create_table { table := [recD1], pending := [] }).table := by
  decide

/-- C9 (counterexample): `run_pipeline` reports no summary.  A run whose only
ticker fails at fetch (`Failed = 1` per the specification's state machine)
and a run whose only ticker returns an empty frame (`Done = 1`, zero records)
produce *identical* caller-visible results, while the summaries the
specification prescribes for them differ — so the value `run_pipeline`
returns cannot contain the Done/Failed counts or the stored total. -/
theorem run_pipeline_result_carries_no_summary :
    run_pipeline fetchFail db0 ["AAPL"] = run_pipeline fetchEmptyData db0 ["AAPL"] ∧
    specRunSummary fetchFail db0 ["AAPL"] ≠ specRunSummary fetchEmptyData db0 ["AAPL"] := by
  decide

/-- C9 (amended): `run_pipeline` returns `None` in Python — in the embedding,
only the threaded database state and a possibly escaping storage error.  Its
result is fully determined by each ticker's processed batch: two runs whose
tickers differ arbitrarily in *how* they came to the same batches (fetch
failure versus empty data versus dropped rows — different Done/Failed
compositions) are indistinguishable to the caller, so no summary of Done and
Failed counts or records stored is reported. -/
theorem run_pipeline_result_independent_of_outcomes (f g : String → Option PyFrame)
    (db : Db) (ts : List String)
    (h : ∀ t, process_data (validate_data (f t)) = process_data (validate_data (g t))) :
    run_pipeline f db ts = run_pipeline g db ts := by
  induction ts generalizing db with
  | nil => rfl
  | cons t ts ih =>
    show (match store_data db (process_data (validate_data (f t))) with
          | (db1, none) => run_pipeline f db1 ts
          | (db1, some e) => (db1, some e)) =
        (match store_data db (process_data (validate_data (g t))) with
          | (db1, none) => run_pipeline g db1 ts
          | (db1, some e) => (db1, some e))
    rw [h t]
    cases store_data db (process_data (validate_data (g t))) with
    | mk db1 e =>
      cases e with
      | none => exact ih db1
      | some err => rfl

/-- C9 (witness): the amended theorem applied to the all-fail and
all-empty-data fetch collaborators, whose processed batches coincide. -/
theorem run_pipeline_result_independent_of_outcomes_witness :
    run_pipeline fetchFail db0 ["MSFT"] = run_pipeline fetchEmptyData db0 ["MSFT"] :=
  run_pipeline_result_independent_of_outcomes fetchFail fetchEmptyData db0 ["MSFT"]
    (fun _ => rfl)

/-- C10 (confirmed): `validate_data` never lets an exception reach its caller:
it is a total function into `Option`.  `None` input returns `None`; an empty
frame returns `None`; and whenever the `try` body raises (for example a
`KeyError` from a missing price column), the `except Exception` handler of
lines 89-91 returns `None` — the same outcome as an empty or null input, the
whole series silently discarded. -/
theorem validate_data_never_raises :
    validate_data none = none ∧
    (∀ f : PyFrame, f.rows.isEmpty = true → validate_data (some f) = none) ∧
    (∀ (f : PyFrame) (e : String), validateBody f = Except.error e →
      validate_data (some f) = none) := by
  refine ⟨rfl, ?_, ?_⟩
  · intro f h
    show (if f.rows.isEmpty = true then (none : Option PyFrame)
        else match validateBody f with
          | Except.ok g => some g
          | Except.error _ => none) = none
    rw [if_pos h]
  · intro f e h
    show (if f.rows.isEmpty = true then (none : Option PyFrame)
        else match validateBody f with
          | Except.ok g => some g
          | Except.error _ => none) = none
    by_cases hne : f.rows.isEmpty = true
    · rw [if_pos hne]
    · rw [if_neg hne, h]

/-- C10 (witness): the internal-error conjunct at the nonempty frame
`frameNoCols`, which lacks the price columns so the body raises a `KeyError`,
together with the null-input conjunct. -/
theorem validate_data_never_raises_witness :
    validate_data (some frameNoCols) = none ∧ validate_data none = none :=
  ⟨validate_data_never_raises.2.2 frameNoCols "KeyError" rfl,
   validate_data_never_raises.1⟩
